import Mathlib

/-!
# Verification of the Liberia Business Awards core subsystems

Shallow embedding of the ad-serving/tracking routes
(`src/backend/routes/ads.routes.js`) and the nomination lifecycle routes
(`src/backend/server.js`), with theorems settling the specification claims
about them.

Conventions of the embedding:
* MongoDB ObjectIds are modelled as `Nat`.
* Dates (`new Date()` values) are modelled as `Int` timestamps.
* A Mongo collection is a `List` of records; `findById`/`findOne` is
  `List.find?`; an update of the document with a given `_id` is a `List.map`
  that rewrites the matching record.
* `$sample {size: 1}` is modelled as a uniform draw: the caller supplies a
  draw index and the sampled document is the one at `draw % length` of the
  matched list, so a uniformly distributed `draw` yields a uniformly
  distributed document.
* A fallible `save()` is modelled by returning the unchanged store together
  with an error result.
-/

namespace LBA

/-! ## Ad subsystem data model (documents referenced by ads.routes.js) -/

/-- An advertiser document, as used by the `$lookup` into `advertisers`
and the serialization of `business_name`. -/
structure Advertiser where
  id : Nat
  business_name : String
deriving DecidableEq, Repr

/-- An ad-campaign document.  The fields are the ones the routes in
`ads.routes.js` read or write (query fields, `$inc` counters, serialized
creative fields); the budget ceilings are modelled from the spec's data
model (the campaign schema itself is injected into the router and is not
part of the sources). -/
structure Campaign where
  id : Nat
  advertiser_id : Nat
  campaign_name : String
  campaign_type : String
  image_url : String
  mobile_image_url : String
  alt_text : String
  target_url : String
  status : String
  payment_status : String
  start_date : Int
  end_date : Int
  max_impressions : Option Nat
  current_impressions : Nat
  max_clicks : Option Nat
  current_clicks : Nat
  budget_total : Option Int
  budget_daily : Option Int
deriving DecidableEq, Repr

/-- An impression fact document (`AdImpression`). -/
structure Impression where
  id : Nat
  campaign_id : Nat
  session_id : String
  ip_address : String
  user_agent : Option String
  referrer : String
  device_type : String
deriving DecidableEq, Repr

/-- A click fact document (`AdClick`). -/
structure Click where
  id : Nat
  campaign_id : Nat
  impression_id : Option Nat
  session_id : String
  ip_address : String
  user_agent : Option String
deriving DecidableEq, Repr

/-- The persistent store seen by the ad routes. -/
structure AdStore where
  campaigns : List Campaign
  advertisers : List Advertiser
  impressions : List Impression
  clicks : List Click
deriving DecidableEq, Repr

/-! ## Campaign selection (`GET /api/ads/next`) -/

/-- The `$match` predicate of the `/ads/next` aggregation: campaign type,
active status, paid payment, date window containing `now`, id not excluded,
and `max_impressions` null or not yet reached. -/
def adsNextMatch (ty : String) (excludeIds : List Nat) (now : Int)
    (c : Campaign) : Bool :=
  c.campaign_type == ty &&
  c.status == "active" &&
  c.payment_status == "paid" &&
  decide (c.start_date ≤ now) &&
  decide (now ≤ c.end_date) &&
  !(excludeIds.contains c.id) &&
  (match c.max_impressions with
   | none => true
   | some m => decide (c.current_impressions < m))

/-- The matched set of the `/ads/next` aggregation. -/
def eligibleAds (s : AdStore) (ty : String) (excludeIds : List Nat)
    (now : Int) : List Campaign :=
  s.campaigns.filter (adsNextMatch ty excludeIds now)

/-- `$sample {size: 1}` over the matched set, modelled as the document at a
uniformly drawn index. Returns `none` exactly when the matched set is
empty. -/
def adsNextSampled (s : AdStore) (ty : String) (excludeIds : List Nat)
    (now : Int) (draw : Nat) : Option Campaign :=
  (eligibleAds s ty excludeIds now)[draw % (eligibleAds s ty excludeIds now).length]?

/-- The `$lookup` from `advertisers` on `advertiser_id` (ids are unique, so
the lookup array has at most one element). -/
def findAdvertiser (s : AdStore) (aid : Nat) : Option Advertiser :=
  s.advertisers.find? (fun a => a.id == aid)

/-- The public-safe payload serialized by `/ads/next`: exactly the fields
the route copies out of the campaign and the joined advertiser. -/
structure SafeAd where
  id : Nat
  campaign_name : String
  image_url : String
  mobile_image_url : String
  alt_text : String
  target_url : String
  business_name : String
deriving DecidableEq, Repr

/-- The field-by-field serialization `/ads/next` performs on the sampled
campaign and its joined advertiser. -/
def mkSafeAd (c : Campaign) (a : Advertiser) : SafeAd :=
  { id := c.id
    campaign_name := c.campaign_name
    image_url := c.image_url
    mobile_image_url := c.mobile_image_url
    alt_text := c.alt_text
    target_url := c.target_url
    business_name := a.business_name }

/-- The HTTP response of `/ads/next`. -/
structure AdsNextResponse where
  httpStatus : Nat
  success : Bool
  error : Option String
  data : Option SafeAd
deriving DecidableEq, Repr

/-- `GET /api/ads/next`: match, sample, look up the advertiser (`$unwind`
drops the document when the lookup is empty), and either serialize the safe
fields or answer 404 `No active ads`. Read-only: the store is untouched. -/
def getAdsNext (s : AdStore) (ty : String) (excludeIds : List Nat)
    (now : Int) (draw : Nat) : AdsNextResponse :=
  match adsNextSampled s ty excludeIds now draw with
  | none =>
      { httpStatus := 404, success := false
        error := some "No active ads", data := none }
  | some c =>
      match findAdvertiser s c.advertiser_id with
      | none =>
          { httpStatus := 404, success := false
            error := some "No active ads", data := none }
      | some a =>
          { httpStatus := 200, success := true
            error := none, data := some (mkSafeAd c a) }

/-! ## Impression / click tracking (`POST /api/ads/track/...`) -/

/-- One request to the tracking endpoints: the body's `campaign_id`
(`none` models a missing/falsy value) and optional `impression_id`, plus
the session id, client ip and headers the route reads. -/
structure TrackRequest where
  campaign_id : Option Nat
  impression_id : Option Nat
  session_id : String
  ip_address : String
  user_agent : Option String
  referrer : Option String
deriving DecidableEq, Repr

/-- `true` iff `pat` occurs as a substring of `s` (for a non-empty
pattern). -/
def containsSub (s pat : String) : Bool :=
  decide ((s.splitOn pat).length > 1)

/-- Device-class inference of the impression route: default `desktop`;
a case-insensitive match of mobile/android/iphone gives `mobile`, and a
subsequent ipad match overrides to `tablet`. -/
def deviceType (ua : Option String) : String :=
  match ua with
  | none => "desktop"
  | some u =>
      let l := u.toLower
      let afterMobile :=
        if containsSub l "mobile" || containsSub l "android" ||
           containsSub l "iphone" then "mobile" else "desktop"
      if containsSub l "ipad" then "tablet" else afterMobile

/-- Outcome of a tracking request: 400 `Campaign ID required`, or 200 with
the id of the inserted fact record. -/
inductive TrackResult where
  | badRequest
  | ok (fact_id : Nat)
deriving DecidableEq, Repr

/-- The impression document the route inserts. -/
def mkImpressionRecord (req : TrackRequest) (cid fid : Nat) : Impression :=
  { id := fid
    campaign_id := cid
    session_id := req.session_id
    ip_address := req.ip_address
    user_agent := req.user_agent
    referrer := req.referrer.getD ""
    device_type := deviceType req.user_agent }

/-- The click document the route inserts. -/
def mkClickRecord (req : TrackRequest) (cid fid : Nat) : Click :=
  { id := fid
    campaign_id := cid
    impression_id := req.impression_id
    session_id := req.session_id
    ip_address := req.ip_address
    user_agent := req.user_agent }

/-- The `findByIdAndUpdate _ {$inc: {current_impressions: 1}}` step: a
single atomic store-level update of the matching campaign; a no-op on every
other campaign (and on the whole list when no campaign has the id). -/
def incImpressions (cid : Nat) (c : Campaign) : Campaign :=
  if c.id == cid then
    { c with current_impressions := c.current_impressions + 1 }
  else c

/-- The `$inc: {current_clicks: 1}` update. -/
def incClicks (cid : Nat) (c : Campaign) : Campaign :=
  if c.id == cid then
    { c with current_clicks := c.current_clicks + 1 }
  else c

/-- `POST /api/ads/track/impression`: reject a missing `campaign_id` with
400 before any effect; otherwise insert the impression record, apply the
atomic `$inc` (a no-op when no campaign has the id — no existence check is
performed), and answer success. -/
def trackImpression (s : AdStore) (req : TrackRequest) (fid : Nat) :
    AdStore × TrackResult :=
  match req.campaign_id with
  | none => (s, .badRequest)
  | some cid =>
      let s1 : AdStore := { s with impressions := s.impressions ++ [mkImpressionRecord req cid fid] }
      let s2 : AdStore := { s1 with campaigns := s1.campaigns.map (incImpressions cid) }
      (s2, .ok fid)

/-- `POST /api/ads/track/click`: same shape as impression tracking, with
the click record and the `current_clicks` counter. -/
def trackClick (s : AdStore) (req : TrackRequest) (fid : Nat) :
    AdStore × TrackResult :=
  match req.campaign_id with
  | none => (s, .badRequest)
  | some cid =>
      let s1 : AdStore := { s with clicks := s.clicks ++ [mkClickRecord req cid fid] }
      let s2 : AdStore := { s1 with campaigns := s1.campaigns.map (incClicks cid) }
      (s2, .ok fid)

/-! ## Nomination subsystem data model (schemas in server.js) -/

/-- Financial-performance sub-document of the nomination schema. -/
structure FinancialPerformance where
  revenue : Option String := none
  growth_percentage : Option Int := none
  profitability : Option String := none
  financial_statement_url : Option String := none
deriving DecidableEq, Repr

/-- One entry of the `innovations` array. -/
structure Innovation where
  title : Option String := none
  description : Option String := none
  impact : Option String := none
  evidence_url : Option String := none
deriving DecidableEq, Repr

/-- One entry of `social_impact.community_projects`. -/
structure CommunityProject where
  name : Option String := none
  description : Option String := none
  beneficiaries : Option Int := none
deriving DecidableEq, Repr

/-- Social-impact sub-document. -/
structure SocialImpact where
  jobs_created : Option Int := none
  community_projects : List CommunityProject := []
  environmental_initiatives : Option String := none
  csr_activities : Option String := none
deriving DecidableEq, Repr

/-- One entry of `market_position.client_testimonials`. -/
structure Testimonial where
  name : Option String := none
  position : Option String := none
  testimonial : Option String := none
  company : Option String := none
deriving DecidableEq, Repr

/-- Market-position sub-document. -/
structure MarketPosition where
  market_share : Option String := none
  competitive_advantage : Option String := none
  client_testimonials : List Testimonial := []
deriving DecidableEq, Repr

/-- One entry of the `documents` array. -/
structure SupportingDocument where
  name : Option String := none
  url : Option String := none
  doc_type : Option String := none
  description : Option String := none
deriving DecidableEq, Repr

/-- One entry of the `scores` array: a judge's evaluation. -/
structure Score where
  judge_id : Nat
  criteria : Option String := none
  score : Int
  comments : Option String := none
  date : Int
deriving DecidableEq, Repr

/-- A nomination document (the `nominationSchema` of server.js). -/
structure Nomination where
  id : Nat
  business_id : Nat
  category : String
  sub_category : Option String
  year : Int
  submission_statement : String
  executive_summary : String
  financial_performance : FinancialPerformance
  innovations : List Innovation
  social_impact : SocialImpact
  market_position : MarketPosition
  documents : List SupportingDocument
  status : String
  scores : List Score
  average_score : Int
  feedback : Option String
  winner_position : Option String
  submitted_at : Option Int
  reviewed_at : Option Int
  shortlisted_at : Option Int
  awarded_at : Option Int
  created_at : Int
  updated_at : Int
deriving DecidableEq, Repr

/-- The user fields the nomination routes read (`req.user` after the
`authenticate` middleware, and the admin query of the submit route). -/
structure User where
  id : Nat
  company_name : String
  email : String
  role : String
  status : String
  verified : Bool
deriving DecidableEq, Repr

/-- A notification document (the `notificationSchema`). -/
structure Notification where
  id : Nat
  user_id : Nat
  title : String
  message : String
  notif_type : String
  related_id : Option Nat
deriving DecidableEq, Repr

/-- The persistent store seen by the nomination routes.
`notificationInsertFails` is the fault model for `Notification.save()`
throwing a storage error (the failure mode `sendNotification`'s try/catch
is written for); `nextNotificationId` supplies fresh notification ids. -/
structure Db where
  users : List User
  nominations : List Nomination
  notifications : List Notification
  nextNotificationId : Nat
  notificationInsertFails : Bool
deriving DecidableEq, Repr

/-- `sendNotification` (server.js:515): build a notification document and
save it; the whole body is wrapped in try/catch, so a failing save is
caught and logged and the function returns `undefined` (`none`) instead of
propagating the error. -/
def sendNotification (db : Db) (userId : Nat) (title message notifTy : String)
    (relatedId : Option Nat) : Db × Option Notification :=
  if db.notificationInsertFails then
    (db, none)
  else
    let n : Notification :=
      { id := db.nextNotificationId
        user_id := userId
        title := title
        message := message
        notif_type := notifTy
        related_id := relatedId }
    ({ db with
        notifications := db.notifications ++ [n]
        nextNotificationId := db.nextNotificationId + 1 },
     some n)

/-! ## Mongoose schema validation (the parts the modelled fields carry) -/

/-- The `status` enum of the nomination schema. -/
def validNominationStatuses : List String :=
  ["draft", "submitted", "under_review", "shortlisted", "finalist",
   "winner", "not_selected"]

/-- `score: {type: Number, min: 0, max: 100}`. -/
def scoreInRange (sc : Score) : Bool :=
  decide (0 ≤ sc.score) && decide (sc.score ≤ 100)

/-- `winner_position: {enum: ['gold', 'silver', 'bronze', null]}`. -/
def winnerPositionValid : Option String → Bool
  | none => true
  | some w => ["gold", "silver", "bronze"].contains w

/-- The document-level validation `save()` performs on the modelled
fields (`required` fields are enforced by construction elsewhere). -/
def nominationValidates (n : Nomination) : Bool :=
  validNominationStatuses.contains n.status &&
  n.scores.all scoreInRange &&
  winnerPositionValid n.winner_position

/-! ## `POST /api/nominations` (create) -/

/-- The request body of the create route: `...req.body` is spread into the
new document, so every schema field a client may set appears here; the
route then overrides `business_id` and `status` itself.  `none` models an
absent field. -/
structure NominationPayload where
  category : Option String := none
  sub_category : Option String := none
  year : Option Int := none
  submission_statement : Option String := none
  executive_summary : Option String := none
  financial_performance : FinancialPerformance := {}
  innovations : List Innovation := []
  social_impact : SocialImpact := {}
  market_position : MarketPosition := {}
  documents : List SupportingDocument := []
  scores : List Score := []
  average_score : Int := 0
  feedback : Option String := none
  winner_position : Option String := none
  submitted_at : Option Int := none
  reviewed_at : Option Int := none
  shortlisted_at : Option Int := none
  awarded_at : Option Int := none
deriving DecidableEq, Repr

/-- Outcome of the create route: 403 (unverified), 500 (save/validation
error), or 201 with the created nomination. -/
inductive CreateResult where
  | permissionDenied
  | serverError
  | created (n : Nomination)
deriving DecidableEq, Repr

/-- The document built by the create route once the four `required` fields
are present: payload fields spread in, `business_id` and `status` forced by
the route. -/
def builtNomination (user : User) (p : NominationPayload) (cat : String)
    (yr : Int) (ss es : String) (fid : Nat) (now : Int) : Nomination :=
  { id := fid
    business_id := user.id
    category := cat
    sub_category := p.sub_category
    year := yr
    submission_statement := ss
    executive_summary := es
    financial_performance := p.financial_performance
    innovations := p.innovations
    social_impact := p.social_impact
    market_position := p.market_position
    documents := p.documents
    status := "draft"
    scores := p.scores
    average_score := p.average_score
    feedback := p.feedback
    winner_position := p.winner_position
    submitted_at := p.submitted_at
    reviewed_at := p.reviewed_at
    shortlisted_at := p.shortlisted_at
    awarded_at := p.awarded_at
    created_at := now
    updated_at := now }

/-- `POST /api/nominations` (server.js:843): the verified-flag gate runs
before any mutation; then `new Nomination({...req.body, business_id,
status: 'draft'})` is saved — a missing `required` field or a validation
failure makes `save()` throw (caught as a 500, nothing persisted);
otherwise the document is inserted and a draft-created notification is
attempted. -/
def createNomination (db : Db) (user : User) (p : NominationPayload)
    (fid : Nat) (now : Int) : Db × CreateResult :=
  if !user.verified then
    (db, .permissionDenied)
  else
    match p.category, p.year, p.submission_statement, p.executive_summary with
    | some cat, some yr, some ss, some es =>
        let n := builtNomination user p cat yr ss es fid now
        if nominationValidates n then
          let db1 : Db := { db with nominations := db.nominations ++ [n] }
          let db2 := (sendNotification db1 user.id "Nomination Draft Created"
            ("Your nomination for " ++ cat ++ " has been saved as draft.")
            "nomination" (some fid)).1
          (db2, .created n)
        else
          (db, .serverError)
    | _, _, _, _ => (db, .serverError)

/-! ## `PUT /api/nominations/:id/submit` -/

/-- Outcome of the submit route: 404 (no nomination with this id owned by
the caller), 400 (`already been submitted`), or 200 with the updated
nomination. -/
inductive SubmitResult where
  | notFound
  | invalidTransition
  | ok (n : Nomination)
deriving DecidableEq, Repr

/-- The two-field update the submit route performs. -/
def submittedNomination (n : Nomination) (now : Int) : Nomination :=
  { n with status := "submitted", submitted_at := some now }

/-- `PUT /api/nominations/:id/submit` (server.js:928): look the nomination
up by id AND owner (one missing → 404); refuse with 400 unless the status
is `draft`; otherwise set `status := submitted`, stamp `submitted_at`,
save, then notify every active admin and the business. -/
def submitNomination (db : Db) (user : User) (nomId : Nat) (now : Int) :
    Db × SubmitResult :=
  match db.nominations.find? (fun m => m.id == nomId && m.business_id == user.id) with
  | none => (db, .notFound)
  | some n =>
      if n.status != "draft" then
        (db, .invalidTransition)
      else
        let n' := submittedNomination n now
        let db1 : Db := { db with
          nominations := db.nominations.map (fun m => if m.id == nomId then n' else m) }
        let admins := db1.users.filter (fun u => u.role == "admin" && u.status == "active")
        let db2 := admins.foldl (fun d a =>
          (sendNotification d a.id "New Nomination Submitted"
            (user.company_name ++ " has submitted a nomination for " ++ n.category ++ ".")
            "nomination" (some n.id)).1) db1
        let db3 := (sendNotification db2 user.id "Nomination Submitted"
          ("Your nomination for " ++ n.category ++ " has been submitted successfully.")
          "nomination" (some n.id)).1
        (db3, .ok n')

/-! ## `PUT /api/admin/nominations/:id/status` -/

/-- Outcome of the admin status route: 404, 500 (save-time enum validation
rejected the requested status), or 200 with the updated nomination. -/
inductive StatusUpdateResult where
  | notFound
  | serverError
  | ok (n : Nomination)
deriving DecidableEq, Repr

/-- `true` on the 200 outcome. -/
def StatusUpdateResult.isOk : StatusUpdateResult → Bool
  | .ok _ => true
  | _ => false

/-- The in-memory mutation of the admin status route: assign the requested
status, copy a truthy feedback, and stamp `shortlisted_at` or `awarded_at`
for those two statuses. -/
def applyStatusUpdate (n : Nomination) (st : String) (fb : Option String)
    (now : Int) : Nomination :=
  let n1 := { n with status := st }
  let n2 := match fb with
    | some f => { n1 with feedback := some f }
    | none => n1
  if st == "shortlisted" then { n2 with shortlisted_at := some now }
  else if st == "winner" then { n2 with awarded_at := some now }
  else n2

/-- The notification title the route picks per status. -/
def statusNotifTitle (st : String) : String :=
  if st == "shortlisted" then "Congratulations! You have been shortlisted!"
  else if st == "winner" then "🏆 Congratulations! You are a Winner!"
  else "Nomination Status Updated"

/-- The notification message the route picks per status. -/
def statusNotifMessage (st cat : String) : String :=
  if st == "shortlisted" then
    "Your nomination for " ++ cat ++ " has been shortlisted."
  else if st == "winner" then
    "Your nomination for " ++ cat ++ " has been selected as a winner!"
  else
    "Your nomination for " ++ cat ++ " has been updated to " ++ st ++ "."

/-- `PUT /api/admin/nominations/:id/status` (server.js:1365): find the
nomination by id (404 if absent), assign the requested status with NO check
against the previous status, stamp the timeline field, and save.  The only
thing that can refuse the assignment is the schema's enum validation at
`save()` (surfacing as a 500 with the stored document unchanged).  On
success the owning business is notified with the status-specific template. -/
def updateNominationStatus (db : Db) (nomId : Nat) (st : String)
    (fb : Option String) (now : Int) : Db × StatusUpdateResult :=
  match db.nominations.find? (fun m => m.id == nomId) with
  | none => (db, .notFound)
  | some n =>
      let n' := applyStatusUpdate n st fb now
      if nominationValidates n' then
        let db1 : Db := { db with
          nominations := db.nominations.map (fun m => if m.id == nomId then n' else m) }
        let db2 := (sendNotification db1 n.business_id (statusNotifTitle st)
          (statusNotifMessage st n.category) "award" (some n.id)).1
        (db2, .ok n')
      else
        (db, .serverError)

/-- Modelled from the spec: the legal-successor relation of the section 4.4
state graph `draft → submitted → under_review → {shortlisted → finalist →
winner} | not_selected`.  The source performs no such check; this
definition exists only to compare the route against the spec's graph. -/
def specLegalSuccessor (cur next : String) : Bool :=
  (cur == "draft" && next == "submitted") ||
  (cur == "submitted" && next == "under_review") ||
  (cur == "under_review" && (next == "shortlisted" || next == "not_selected")) ||
  (cur == "shortlisted" && next == "finalist") ||
  (cur == "finalist" && next == "winner")

/-! ## Concrete instances for the closed checks -/

/-- A paid, active popup campaign inside its date window with spare
impression cap. -/
def exCampaign : Campaign :=
  { id := 1, advertiser_id := 10, campaign_name := "Launch"
    campaign_type := "popup", image_url := "img.png"
    mobile_image_url := "m.png", alt_text := "ad", target_url := "https://x"
    status := "active", payment_status := "paid"
    start_date := 0, end_date := 100
    max_impressions := some 50, current_impressions := 3
    max_clicks := none, current_clicks := 0
    budget_total := some 1000, budget_daily := none }

def exAdvertiser : Advertiser := { id := 10, business_name := "Acme Ltd" }

/-- A store with one eligible campaign whose advertiser exists. -/
def exAdStore : AdStore :=
  { campaigns := [exCampaign], advertisers := [exAdvertiser]
    impressions := [], clicks := [] }

/-- An eligible campaign whose `advertiser_id` matches no advertiser. -/
def exOrphanCampaign : Campaign :=
  { exCampaign with id := 2, advertiser_id := 99 }

/-- A store whose only eligible popup campaign has no advertiser
document. -/
def exOrphanStore : AdStore :=
  { campaigns := [exOrphanCampaign], advertisers := []
    impressions := [], clicks := [] }

/-- A tracking request naming campaign 99, which no store below has. -/
def exTrackReq99 : TrackRequest :=
  { campaign_id := some 99, impression_id := none, session_id := "s1"
    ip_address := "203.0.113.7", user_agent := some "Mozilla/5.0"
    referrer := none }

/-- A tracking request naming the unknown campaign 2 of `exAdStore`. -/
def exTrackReq2 : TrackRequest :=
  { campaign_id := some 2, impression_id := some 4, session_id := "s2"
    ip_address := "203.0.113.8", user_agent := none, referrer := some "r" }

/-- A tracking request naming campaign 1 of `exAdStore`. -/
def exTrackReq1 : TrackRequest :=
  { campaign_id := some 1, impression_id := none, session_id := "s3"
    ip_address := "203.0.113.9", user_agent := some "iPhone Mobile"
    referrer := none }

/-- A tracking request whose body has no `campaign_id`. -/
def exTrackReqNone : TrackRequest :=
  { campaign_id := none, impression_id := none, session_id := "s4"
    ip_address := "203.0.113.10", user_agent := none, referrer := none }

/-- A draft nomination owned by business user 5. -/
def exNomination : Nomination :=
  { id := 1, business_id := 5, category := "Technology", sub_category := none
    year := 2025, submission_statement := "stmt", executive_summary := "sum"
    financial_performance := {}, innovations := [], social_impact := {}
    market_position := {}, documents := [], status := "draft", scores := []
    average_score := 0, feedback := none, winner_position := none
    submitted_at := none, reviewed_at := none, shortlisted_at := none
    awarded_at := none, created_at := 0, updated_at := 0 }

/-- A verified, active business user. -/
def exBusinessUser : User :=
  { id := 5, company_name := "Acme Ltd", email := "acme@example.com"
    role := "business", status := "active", verified := true }

/-- An active admin user. -/
def exAdminUser : User :=
  { id := 7, company_name := "LBA", email := "admin@example.com"
    role := "admin", status := "active", verified := true }

/-- A store with the draft nomination, its owner and one active admin. -/
def exDb : Db :=
  { users := [exBusinessUser, exAdminUser]
    nominations := [exNomination]
    notifications := [], nextNotificationId := 0
    notificationInsertFails := false }

/-- `exNomination` after submission. -/
def exSubmittedNomination : Nomination :=
  { exNomination with status := "submitted" }

/-- A store whose only nomination is in status `submitted`. -/
def exDbSubmitted : Db := { exDb with nominations := [exSubmittedNomination] }

/-- A creation payload carrying the four `required` fields. -/
def exPayload : NominationPayload :=
  { category := some "Technology", year := some 2025
    submission_statement := some "stmt", executive_summary := some "sum" }

/-- The store with the notification fault flag forced: `true` injects a
storage failure into every `Notification.save()`. -/
def withNotifFailure (db : Db) (b : Bool) : Db :=
  { db with notificationInsertFails := b }

/-! ## Theorems -/

/-- Every campaign the `/ads/next` pipeline can sample is a member of the
matched set of its `$match` stage. -/
theorem sampled_mem_eligible {s : AdStore} {ty : String} {excl : List Nat}
    {now : Int} {draw : Nat} {c : Campaign}
    (h : adsNextSampled s ty excl now draw = some c) :
    c ∈ eligibleAds s ty excl now := by
  unfold adsNextSampled at h
  obtain ⟨hlt, hget⟩ := List.getElem?_eq_some.mp h
  exact hget ▸ List.getElem_mem hlt

/-- C2.  Every campaign returned by `GET /api/ads/next` is one of the
store's campaigns and satisfies the eligibility invariant: active status,
paid payment, `start ≤ now ≤ end`, cap not reached, the requested placement
type, and an id outside the exclude set; and the serialized payload (when
any) is that campaign's. -/
theorem C2_selectCampaign_only_eligible (s : AdStore) (ty : String)
    (excl : List Nat) (now : Int) (draw : Nat) (c : Campaign)
    (h : adsNextSampled s ty excl now draw = some c) :
    c ∈ s.campaigns
    ∧ c.status = "active"
    ∧ c.payment_status = "paid"
    ∧ c.start_date ≤ now
    ∧ now ≤ c.end_date
    ∧ (match c.max_impressions with
       | none => True
       | some m => c.current_impressions < m)
    ∧ c.campaign_type = ty
    ∧ excl.contains c.id = false
    ∧ (getAdsNext s ty excl now draw).data.all (fun d => d.id == c.id) = true := by
  have hmem := sampled_mem_eligible h
  obtain ⟨hc, hmatch⟩ := List.mem_filter.mp hmem
  simp only [adsNextMatch, Bool.and_eq_true, beq_iff_eq, decide_eq_true_eq,
    Bool.not_eq_true'] at hmatch
  obtain ⟨⟨⟨⟨⟨⟨hty, hst⟩, hpay⟩, hstart⟩, hend⟩, hexcl⟩, hcap⟩ := hmatch
  refine ⟨hc, hst, hpay, hstart, hend, ?_, hty, hexcl, ?_⟩
  · cases hmi : c.max_impressions with
    | none => trivial
    | some m => rw [hmi] at hcap; exact of_decide_eq_true hcap
  · cases hadv : findAdvertiser s c.advertiser_id with
    | none => simp [getAdsNext, h, hadv]
    | some a => simp [getAdsNext, h, hadv, mkSafeAd]

/-- C2 witness: `C2_selectCampaign_only_eligible` at the concrete store
`exAdStore`, placement `popup`, time 50, draw 0. -/
theorem C2_witness :
    exCampaign ∈ exAdStore.campaigns
    ∧ exCampaign.status = "active"
    ∧ exCampaign.payment_status = "paid"
    ∧ exCampaign.start_date ≤ 50
    ∧ (50 : Int) ≤ exCampaign.end_date
    ∧ (match exCampaign.max_impressions with
       | none => True
       | some m => exCampaign.current_impressions < m)
    ∧ exCampaign.campaign_type = "popup"
    ∧ (([] : List Nat)).contains exCampaign.id = false
    ∧ (getAdsNext exAdStore "popup" [] 50 0).data.all
        (fun d => d.id == exCampaign.id) = true :=
  C2_selectCampaign_only_eligible exAdStore "popup" [] 50 0 exCampaign (by decide)

/-- A map that fixes every member of a list is the identity on it. -/
theorem map_eq_self_of {α : Type} {l : List α} {f : α → α}
    (h : ∀ x ∈ l, f x = x) : l.map f = l := by
  induction l with
  | nil => rfl
  | cons hd tl ih =>
      simp only [List.map_cons, h hd (List.mem_cons_self hd tl),
        ih (fun x hx => h x (List.mem_cons_of_mem hd hx))]

/-- C6 counterexample.  In `exOrphanStore` the eligible set for `popup` is
non-empty (one campaign), yet the route answers 404 `No active ads` because
the sampled campaign's advertiser is missing and `$unwind` drops it: the
eligible campaign is returned with probability 0, not 1/k, refuting the
claim as stated. -/
theorem C6_counterexample_missing_advertiser :
    (eligibleAds exOrphanStore "popup" [] 50).length = 1
    ∧ getAdsNext exOrphanStore "popup" [] 50 0 =
        { httpStatus := 404, success := false
          error := some "No active ads", data := none } := by
  decide

/-- C6 (amended).  When the eligible set is empty, every draw answers the
normal 404 `No active ads`.  When the eligible set has no duplicate
documents, each eligible campaign is produced by exactly one of the `k`
equally likely draws `0, …, k-1` — probability 1/k under the uniform draw —
and whenever the sampled campaign's advertiser exists the response is the
200 payload serialized from that campaign.  (A sampled campaign with no
advertiser document is dropped by `$unwind` and the route answers 404, the
case the counterexample exhibits.) -/
theorem C6_amended_uniform_or_404 (s : AdStore) (ty : String)
    (excl : List Nat) (now : Int) (draw : Nat) (c : Campaign) (a : Advertiser) :
    (eligibleAds s ty excl now = [] →
      getAdsNext s ty excl now draw =
        { httpStatus := 404, success := false
          error := some "No active ads", data := none })
    ∧ ((eligibleAds s ty excl now).Nodup → c ∈ eligibleAds s ty excl now →
        ((Finset.range (eligibleAds s ty excl now).length).filter
          (fun j => adsNextSampled s ty excl now j = some c)).card = 1)
    ∧ (adsNextSampled s ty excl now draw = some c →
       findAdvertiser s c.advertiser_id = some a →
       getAdsNext s ty excl now draw =
         { httpStatus := 200, success := true
           error := none, data := some (mkSafeAd c a) }) := by
  refine ⟨?_, ?_, ?_⟩
  · intro hnil
    simp [getAdsNext, adsNextSampled, hnil]
  · intro hnd hc
    obtain ⟨i0, hi0, hget⟩ := List.mem_iff_getElem.mp hc
    apply Finset.card_eq_one.mpr
    refine ⟨i0, ?_⟩
    ext j
    simp only [Finset.mem_filter, Finset.mem_range, Finset.mem_singleton]
    constructor
    · rintro ⟨hj, hsamp⟩
      unfold adsNextSampled at hsamp
      rw [Nat.mod_eq_of_lt hj] at hsamp
      obtain ⟨hj', hgj⟩ := List.getElem?_eq_some.mp hsamp
      exact (List.Nodup.getElem_inj_iff hnd).mp (hgj.trans hget.symm)
    · rintro rfl
      refine ⟨hi0, ?_⟩
      unfold adsNextSampled
      rw [Nat.mod_eq_of_lt hi0, List.getElem?_eq_getElem hi0, hget]
  · intro hsamp hadv
    simp [getAdsNext, hsamp, hadv]

/-- C6 witness: `C6_amended_uniform_or_404` at `exAdStore` (eligible set of
size 1 whose advertiser exists): exactly one of the 1 draws samples the
campaign, and draw 0 answers 200 with its safe payload. -/
theorem C6_witness :
    ((Finset.range (eligibleAds exAdStore "popup" [] 50).length).filter
      (fun j => adsNextSampled exAdStore "popup" [] 50 j = some exCampaign)).card = 1
    ∧ getAdsNext exAdStore "popup" [] 50 0 =
        { httpStatus := 200, success := true
          error := none, data := some (mkSafeAd exCampaign exAdvertiser) } :=
  ⟨(C6_amended_uniform_or_404 exAdStore "popup" [] 50 0 exCampaign exAdvertiser).2.1
      (by decide) (by decide),
   (C6_amended_uniform_or_404 exAdStore "popup" [] 50 0 exCampaign exAdvertiser).2.2
      (by decide) (by decide)⟩

/-- C8.  The `/ads/next` serialization is independent of every internal
field — overwriting status, payment, dates, caps, counters, budget and the
advertiser reference of the campaign leaves the payload unchanged — and
every successful response's payload is exactly the seven public fields
(id, campaign name, the two creative URLs, alt text, target URL, advertiser
business name) of a stored campaign and its advertiser; the `SafeAd` type
of the payload has no other field. -/
theorem C8_safe_serialization (s : AdStore) (ty : String) (excl : List Nat)
    (now : Int) (draw : Nat) (c : Campaign) (a : Advertiser)
    (stc pst : String) (sd ed : Int) (mi mc : Option Nat) (ci cc : Nat)
    (bt bd : Option Int) (aid : Nat) :
    mkSafeAd { c with
        status := stc, payment_status := pst,
        start_date := sd, end_date := ed,
        max_impressions := mi, current_impressions := ci,
        max_clicks := mc, current_clicks := cc,
        budget_total := bt, budget_daily := bd,
        advertiser_id := aid } a = mkSafeAd c a
    ∧ (adsNextSampled s ty excl now draw = some c →
       findAdvertiser s c.advertiser_id = some a →
       c ∈ s.campaigns ∧ a ∈ s.advertisers
       ∧ (getAdsNext s ty excl now draw).data = some
           { id := c.id, campaign_name := c.campaign_name
             image_url := c.image_url
             mobile_image_url := c.mobile_image_url
             alt_text := c.alt_text, target_url := c.target_url
             business_name := a.business_name }) := by
  refine ⟨rfl, fun hsamp hadv => ?_⟩
  refine ⟨(List.mem_filter.mp (sampled_mem_eligible hsamp)).1,
          List.mem_of_find?_eq_some hadv, ?_⟩
  simp [getAdsNext, hsamp, hadv, mkSafeAd]

/-- C8 witness: `C8_safe_serialization` at `exAdStore` with all internal
fields of the campaign overwritten. -/
theorem C8_witness :
    mkSafeAd { exCampaign with
        status := "draft", payment_status := "refunded",
        start_date := 7, end_date := 8,
        max_impressions := none, current_impressions := 999,
        max_clicks := some 1, current_clicks := 5,
        budget_total := none, budget_daily := some 3,
        advertiser_id := 0 } exAdvertiser = mkSafeAd exCampaign exAdvertiser
    ∧ (exCampaign ∈ exAdStore.campaigns ∧ exAdvertiser ∈ exAdStore.advertisers
       ∧ (getAdsNext exAdStore "popup" [] 50 0).data = some
           { id := exCampaign.id, campaign_name := exCampaign.campaign_name
             image_url := exCampaign.image_url
             mobile_image_url := exCampaign.mobile_image_url
             alt_text := exCampaign.alt_text, target_url := exCampaign.target_url
             business_name := exAdvertiser.business_name }) :=
  ⟨(C8_safe_serialization exAdStore "popup" [] 50 0 exCampaign exAdvertiser
      "draft" "refunded" 7 8 none (some 1) 999 5 none (some 3) 0).1,
   (C8_safe_serialization exAdStore "popup" [] 50 0 exCampaign exAdvertiser
      "draft" "refunded" 7 8 none (some 1) 999 5 none (some 3) 0).2
      (by decide) (by decide)⟩

/-- C3 counterexample.  Campaign 99 does not exist in `exAdStore`, yet the
impression-tracking request for it is not rejected as not-found: it answers
success and inserts the dangling fact record. -/
theorem C3_counterexample_unknown_campaign_succeeds :
    exAdStore.campaigns.all (fun c => c.id != 99) = true
    ∧ (trackImpression exAdStore exTrackReq99 7).2 = TrackResult.ok 7
    ∧ (trackImpression exAdStore exTrackReq99 7).1.impressions.length = 1 := by
  decide

/-- C3 (amended).  A missing `campaign_id` is rejected with 400 before any
effect, for both tracking endpoints.  An unknown `campaign_id`, however, is
NOT rejected: the fact record is inserted with the dangling reference and
the request answers success — while no counter changes and no phantom
campaign is created (the `$inc` update is a no-op on a store none of whose
campaigns has the id). -/
theorem C3_amended_tracking_validation (s : AdStore) (req : TrackRequest)
    (fid cid : Nat) :
    (req.campaign_id = none →
      trackImpression s req fid = (s, .badRequest)
      ∧ trackClick s req fid = (s, .badRequest))
    ∧ (req.campaign_id = some cid →
       s.campaigns.all (fun c => c.id != cid) = true →
         (trackImpression s req fid).2 = .ok fid
         ∧ (trackImpression s req fid).1.impressions
             = s.impressions ++ [mkImpressionRecord req cid fid]
         ∧ (trackImpression s req fid).1.campaigns = s.campaigns
         ∧ (trackImpression s req fid).1.clicks = s.clicks
         ∧ (trackClick s req fid).2 = .ok fid
         ∧ (trackClick s req fid).1.clicks
             = s.clicks ++ [mkClickRecord req cid fid]
         ∧ (trackClick s req fid).1.campaigns = s.campaigns
         ∧ (trackClick s req fid).1.impressions = s.impressions) := by
  constructor
  · intro hnone
    constructor
    · unfold trackImpression; rw [hnone]
    · unfold trackClick; rw [hnone]
  · intro hsome hall
    have hfix : ∀ c ∈ s.campaigns, c.id ≠ cid := by
      intro c hc
      have := List.all_eq_true.mp hall c hc
      simpa using this
    have himp : s.campaigns.map (incImpressions cid) = s.campaigns :=
      map_eq_self_of (fun c hc => by
        unfold incImpressions
        simp [beq_eq_false_iff_ne.mpr (hfix c hc)])
    have hclk : s.campaigns.map (incClicks cid) = s.campaigns :=
      map_eq_self_of (fun c hc => by
        unfold incClicks
        simp [beq_eq_false_iff_ne.mpr (hfix c hc)])
    unfold trackImpression trackClick
    rw [hsome]
    exact ⟨rfl, rfl, himp, rfl, rfl, rfl, hclk, rfl⟩

/-- C3 witness: `C3_amended_tracking_validation` at `exAdStore` — the
missing-id rejection at `exTrackReqNone` and the unknown-id success at
`exTrackReq99`. -/
theorem C3_witness :
    (trackImpression exAdStore exTrackReqNone 7 = (exAdStore, .badRequest)
     ∧ trackClick exAdStore exTrackReqNone 7 = (exAdStore, .badRequest))
    ∧ ((trackImpression exAdStore exTrackReq99 7).2 = .ok 7
       ∧ (trackImpression exAdStore exTrackReq99 7).1.impressions
           = exAdStore.impressions ++ [mkImpressionRecord exTrackReq99 99 7]
       ∧ (trackImpression exAdStore exTrackReq99 7).1.campaigns = exAdStore.campaigns
       ∧ (trackImpression exAdStore exTrackReq99 7).1.clicks = exAdStore.clicks
       ∧ (trackClick exAdStore exTrackReq99 7).2 = .ok 7
       ∧ (trackClick exAdStore exTrackReq99 7).1.clicks
           = exAdStore.clicks ++ [mkClickRecord exTrackReq99 99 7]
       ∧ (trackClick exAdStore exTrackReq99 7).1.campaigns = exAdStore.campaigns
       ∧ (trackClick exAdStore exTrackReq99 7).1.impressions = exAdStore.impressions) :=
  ⟨(C3_amended_tracking_validation exAdStore exTrackReqNone 7 0).1 rfl,
   (C3_amended_tracking_validation exAdStore exTrackReq99 7 99).2 rfl (by decide)⟩

/-- C5 counterexample.  The impression-tracking call for the nonexistent
campaign 2 of `exAdStore` is successful (200, `success: true`), yet no
campaign's `current_impressions` counter changes — refuting "every
successful recordImpression call … increases the referenced campaign's
current_impressions counter by exactly 1". -/
theorem C5_counterexample_success_without_increment :
    (trackImpression exAdStore exTrackReq2 8).2 = TrackResult.ok 8
    ∧ (trackImpression exAdStore exTrackReq2 8).1.campaigns = exAdStore.campaigns := by
  decide

/-- C5 (amended).  Every request carrying a `campaign_id` succeeds and
inserts exactly one fact record; the counter update is a single store-level
`$inc` of the matching campaign — the campaign with the referenced id (when
it exists) gains exactly 1 on its counter and every other campaign is
untouched; when no campaign has the id the `$inc` is a no-op and the call
still reports success.  The other fact collection and the other counter are
untouched. -/
theorem C5_amended_exactly_one_insert_and_inc (s : AdStore)
    (req : TrackRequest) (fid cid : Nat) (c : Campaign)
    (h : req.campaign_id = some cid) :
    (trackImpression s req fid).2 = .ok fid
    ∧ (trackImpression s req fid).1.impressions
        = s.impressions ++ [mkImpressionRecord req cid fid]
    ∧ (trackImpression s req fid).1.clicks = s.clicks
    ∧ (trackImpression s req fid).1.campaigns = s.campaigns.map (incImpressions cid)
    ∧ (c.id = cid →
        incImpressions cid c = { c with current_impressions := c.current_impressions + 1 })
    ∧ (c.id ≠ cid → incImpressions cid c = c)
    ∧ (trackClick s req fid).2 = .ok fid
    ∧ (trackClick s req fid).1.clicks = s.clicks ++ [mkClickRecord req cid fid]
    ∧ (trackClick s req fid).1.impressions = s.impressions
    ∧ (trackClick s req fid).1.campaigns = s.campaigns.map (incClicks cid)
    ∧ (c.id = cid →
        incClicks cid c = { c with current_clicks := c.current_clicks + 1 })
    ∧ (c.id ≠ cid → incClicks cid c = c) := by
  unfold trackImpression trackClick
  rw [h]
  refine ⟨rfl, rfl, rfl, rfl, ?_, ?_, rfl, rfl, rfl, rfl, ?_, ?_⟩
  · intro he; unfold incImpressions; simp [he]
  · intro hne; unfold incImpressions; simp [beq_eq_false_iff_ne.mpr hne]
  · intro he; unfold incClicks; simp [he]
  · intro hne; unfold incClicks; simp [beq_eq_false_iff_ne.mpr hne]

/-- C5 witness: `C5_amended_exactly_one_insert_and_inc` at `exAdStore` and
the request for its (existing) campaign 1. -/
theorem C5_witness :
    (trackImpression exAdStore exTrackReq1 9).2 = .ok 9
    ∧ (trackImpression exAdStore exTrackReq1 9).1.impressions
        = exAdStore.impressions ++ [mkImpressionRecord exTrackReq1 1 9]
    ∧ (trackImpression exAdStore exTrackReq1 9).1.clicks = exAdStore.clicks
    ∧ (trackImpression exAdStore exTrackReq1 9).1.campaigns
        = exAdStore.campaigns.map (incImpressions 1)
    ∧ (exCampaign.id = 1 →
        incImpressions 1 exCampaign
          = { exCampaign with current_impressions := exCampaign.current_impressions + 1 })
    ∧ (exCampaign.id ≠ 1 → incImpressions 1 exCampaign = exCampaign)
    ∧ (trackClick exAdStore exTrackReq1 9).2 = .ok 9
    ∧ (trackClick exAdStore exTrackReq1 9).1.clicks
        = exAdStore.clicks ++ [mkClickRecord exTrackReq1 1 9]
    ∧ (trackClick exAdStore exTrackReq1 9).1.impressions = exAdStore.impressions
    ∧ (trackClick exAdStore exTrackReq1 9).1.campaigns
        = exAdStore.campaigns.map (incClicks 1)
    ∧ (exCampaign.id = 1 →
        incClicks 1 exCampaign
          = { exCampaign with current_clicks := exCampaign.current_clicks + 1 })
    ∧ (exCampaign.id ≠ 1 → incClicks 1 exCampaign = exCampaign) :=
  C5_amended_exactly_one_insert_and_inc exAdStore exTrackReq1 9 1 exCampaign rfl

/-! ### Helper lemmas for the nomination routes -/

/-- A (possibly failing) notification insert never touches the nominations
collection. -/
theorem sendNotification_nominations (db : Db) (uid : Nat) (t m ty : String)
    (r : Option Nat) :
    (sendNotification db uid t m ty r).1.nominations = db.nominations := by
  unfold sendNotification
  split <;> rfl

/-- A notification insert never touches the users collection. -/
theorem sendNotification_users (db : Db) (uid : Nat) (t m ty : String)
    (r : Option Nat) :
    (sendNotification db uid t m ty r).1.users = db.users := by
  unfold sendNotification
  split <;> rfl

/-- The admin fan-out loop of the submit route never touches the
nominations collection. -/
theorem foldl_sendNotification_nominations (xs : List User) (db : Db)
    (t m ty : String) (r : Option Nat) :
    (xs.foldl (fun d a => (sendNotification d a.id t m ty r).1) db).nominations
      = db.nominations := by
  induction xs generalizing db with
  | nil => rfl
  | cons hd tl ih =>
      rw [List.foldl_cons, ih, sendNotification_nominations]

/-- After rewriting the document with a given id, a lookup by that id (and
any owner filter the rewritten document satisfies) finds the rewritten
document, provided some document with the id was present. -/
theorem find?_update_owner (l : List Nomination) (nomId bid : Nat)
    (n' : Nomination) (hid : n'.id = nomId) (hb : n'.business_id = bid)
    (hex : ∃ m, m ∈ l ∧ m.id = nomId) :
    (l.map (fun m => if m.id == nomId then n' else m)).find?
      (fun m => m.id == nomId && m.business_id == bid) = some n' := by
  induction l with
  | nil =>
      obtain ⟨m, hm, _⟩ := hex
      cases hm
  | cons hd tl ih =>
      simp only [List.map_cons]
      by_cases h : hd.id = nomId
      · rw [if_pos (by simp [h]),
          List.find?_cons_of_pos _ (by simp [hid, hb])]
      · rw [if_neg (by simp [h]),
          List.find?_cons_of_neg _ (by simp [h])]
        apply ih
        obtain ⟨m, hm, hmid⟩ := hex
        rcases List.mem_cons.mp hm with rfl | hm'
        · exact absurd hmid h
        · exact ⟨m, hm', hmid⟩

/-- The submit route on a draft nomination owned by the caller: 200 with
the two-field update, which is also what is stored. -/
theorem submit_ok_of_draft (db : Db) (user : User) (nomId : Nat) (now : Int)
    (n : Nomination)
    (hf : db.nominations.find? (fun m => m.id == nomId && m.business_id == user.id)
            = some n)
    (hd : n.status = "draft") :
    (submitNomination db user nomId now).2 = .ok (submittedNomination n now)
    ∧ (submitNomination db user nomId now).1.nominations
        = db.nominations.map
            (fun m => if m.id == nomId then submittedNomination n now else m) := by
  have hbne : (n.status != "draft") = false := by simp [hd]
  simp only [submitNomination, hf, hbne, Bool.false_eq_true, if_false]
  exact ⟨by trivial, by
    rw [sendNotification_nominations, foldl_sendNotification_nominations]⟩

/-- C4.  `PUT /api/nominations/:id/submit` succeeds iff the nomination
exists, is owned by the caller and is in status `draft`; on success it sets
`status := submitted` and stamps `submitted_at := now`; a non-`draft`
status answers 400 InvalidTransition with the store unchanged; a missing or
foreign nomination answers 404; and a second submit right after a
successful one answers 400 InvalidTransition and changes nothing. -/
theorem C4_submit_iff_draft_owner (db : Db) (user : User) (nomId : Nat)
    (now now2 : Int) (n : Nomination) :
    (db.nominations.find? (fun m => m.id == nomId && m.business_id == user.id) = none →
      submitNomination db user nomId now = (db, .notFound))
    ∧ (db.nominations.find? (fun m => m.id == nomId && m.business_id == user.id) = some n →
       n.status ≠ "draft" →
         submitNomination db user nomId now = (db, .invalidTransition))
    ∧ (db.nominations.find? (fun m => m.id == nomId && m.business_id == user.id) = some n →
       n.status = "draft" →
         (submitNomination db user nomId now).2 = .ok (submittedNomination n now)
         ∧ (submittedNomination n now).status = "submitted"
         ∧ (submittedNomination n now).submitted_at = some now
         ∧ (submitNomination db user nomId now).1.nominations
             = db.nominations.map
                 (fun m => if m.id == nomId then submittedNomination n now else m)
         ∧ (submitNomination (submitNomination db user nomId now).1 user nomId now2).2
             = .invalidTransition
         ∧ (submitNomination (submitNomination db user nomId now).1 user nomId now2).1
             = (submitNomination db user nomId now).1) := by
  refine ⟨?_, ?_, ?_⟩
  · intro hf
    simp only [submitNomination, hf]
  · intro hf hnd
    have hbne : (n.status != "draft") = true := by simp [bne_iff_ne, hnd]
    simp only [submitNomination, hf, hbne, if_true]
  · intro hf hd
    obtain ⟨hres, hnoms⟩ := submit_ok_of_draft db user nomId now n hf hd
    have hpred := List.find?_some hf
    simp only [Bool.and_eq_true, beq_iff_eq] at hpred
    generalize hdb1 : (submitNomination db user nomId now).1 = db'
    rw [hdb1] at hnoms
    have hfind2 : db'.nominations.find?
        (fun m => m.id == nomId && m.business_id == user.id)
        = some (submittedNomination n now) := by
      rw [hnoms]
      exact find?_update_owner db.nominations nomId user.id
        (submittedNomination n now) hpred.1 hpred.2
        ⟨n, List.mem_of_find?_eq_some hf, hpred.1⟩
    have hstat2 : ((submittedNomination n now).status != "draft") = true := by
      simp [submittedNomination]
    refine ⟨hres, rfl, rfl, hnoms, ?_, ?_⟩
    · simp only [submitNomination, hfind2, hstat2, if_true]
    · simp only [submitNomination, hfind2, hstat2, if_true]

/-- C4 witness: `C4_submit_iff_draft_owner` at `exDb` — the submit of the
draft `exNomination` by its owner succeeds, and the immediate second submit
answers InvalidTransition with nothing changed. -/
theorem C4_witness :
    (submitNomination exDb exBusinessUser 1 50).2
        = .ok (submittedNomination exNomination 50)
    ∧ (submittedNomination exNomination 50).status = "submitted"
    ∧ (submittedNomination exNomination 50).submitted_at = some 50
    ∧ (submitNomination exDb exBusinessUser 1 50).1.nominations
        = exDb.nominations.map
            (fun m => if m.id == 1 then submittedNomination exNomination 50 else m)
    ∧ (submitNomination (submitNomination exDb exBusinessUser 1 50).1 exBusinessUser 1 60).2
        = .invalidTransition
    ∧ (submitNomination (submitNomination exDb exBusinessUser 1 50).1 exBusinessUser 1 60).1
        = (submitNomination exDb exBusinessUser 1 50).1 :=
  (C4_submit_iff_draft_owner exDb exBusinessUser 1 50 60 exNomination).2.2
    (by decide) (by decide)

/-- C10.  A successful submit changes only `status` and `submitted_at`: the
stored update is the two-field rewrite `submittedNomination n now`, and
every other field of that document equals the corresponding field of the
original nomination. -/
theorem C10_submit_frame (db : Db) (user : User) (nomId : Nat) (now : Int)
    (n : Nomination)
    (hf : db.nominations.find? (fun m => m.id == nomId && m.business_id == user.id)
            = some n)
    (hd : n.status = "draft") :
    (submitNomination db user nomId now).2 = .ok (submittedNomination n now)
    ∧ (submitNomination db user nomId now).1.nominations
        = db.nominations.map
            (fun m => if m.id == nomId then submittedNomination n now else m)
    ∧ (submittedNomination n now).id = n.id
    ∧ (submittedNomination n now).business_id = n.business_id
    ∧ (submittedNomination n now).category = n.category
    ∧ (submittedNomination n now).sub_category = n.sub_category
    ∧ (submittedNomination n now).year = n.year
    ∧ (submittedNomination n now).submission_statement = n.submission_statement
    ∧ (submittedNomination n now).executive_summary = n.executive_summary
    ∧ (submittedNomination n now).financial_performance = n.financial_performance
    ∧ (submittedNomination n now).innovations = n.innovations
    ∧ (submittedNomination n now).social_impact = n.social_impact
    ∧ (submittedNomination n now).market_position = n.market_position
    ∧ (submittedNomination n now).documents = n.documents
    ∧ (submittedNomination n now).scores = n.scores
    ∧ (submittedNomination n now).average_score = n.average_score
    ∧ (submittedNomination n now).feedback = n.feedback
    ∧ (submittedNomination n now).winner_position = n.winner_position
    ∧ (submittedNomination n now).reviewed_at = n.reviewed_at
    ∧ (submittedNomination n now).shortlisted_at = n.shortlisted_at
    ∧ (submittedNomination n now).awarded_at = n.awarded_at
    ∧ (submittedNomination n now).created_at = n.created_at
    ∧ (submittedNomination n now).updated_at = n.updated_at := by
  obtain ⟨hres, hnoms⟩ := submit_ok_of_draft db user nomId now n hf hd
  exact ⟨hres, hnoms, rfl, rfl, rfl, rfl, rfl, rfl, rfl, rfl, rfl, rfl, rfl,
    rfl, rfl, rfl, rfl, rfl, rfl, rfl, rfl, rfl, rfl⟩

/-- C10 witness: `C10_submit_frame` at `exDb`. -/
theorem C10_witness :
    (submitNomination exDb exBusinessUser 1 50).2
        = .ok (submittedNomination exNomination 50)
    ∧ (submitNomination exDb exBusinessUser 1 50).1.nominations
        = exDb.nominations.map
            (fun m => if m.id == 1 then submittedNomination exNomination 50 else m)
    ∧ (submittedNomination exNomination 50).id = exNomination.id
    ∧ (submittedNomination exNomination 50).business_id = exNomination.business_id
    ∧ (submittedNomination exNomination 50).category = exNomination.category
    ∧ (submittedNomination exNomination 50).sub_category = exNomination.sub_category
    ∧ (submittedNomination exNomination 50).year = exNomination.year
    ∧ (submittedNomination exNomination 50).submission_statement
        = exNomination.submission_statement
    ∧ (submittedNomination exNomination 50).executive_summary
        = exNomination.executive_summary
    ∧ (submittedNomination exNomination 50).financial_performance
        = exNomination.financial_performance
    ∧ (submittedNomination exNomination 50).innovations = exNomination.innovations
    ∧ (submittedNomination exNomination 50).social_impact = exNomination.social_impact
    ∧ (submittedNomination exNomination 50).market_position = exNomination.market_position
    ∧ (submittedNomination exNomination 50).documents = exNomination.documents
    ∧ (submittedNomination exNomination 50).scores = exNomination.scores
    ∧ (submittedNomination exNomination 50).average_score = exNomination.average_score
    ∧ (submittedNomination exNomination 50).feedback = exNomination.feedback
    ∧ (submittedNomination exNomination 50).winner_position = exNomination.winner_position
    ∧ (submittedNomination exNomination 50).reviewed_at = exNomination.reviewed_at
    ∧ (submittedNomination exNomination 50).shortlisted_at = exNomination.shortlisted_at
    ∧ (submittedNomination exNomination 50).awarded_at = exNomination.awarded_at
    ∧ (submittedNomination exNomination 50).created_at = exNomination.created_at
    ∧ (submittedNomination exNomination 50).updated_at = exNomination.updated_at :=
  C10_submit_frame exDb exBusinessUser 1 50 exNomination (by decide) (by decide)

/-- C7 counterexample.  A verified business posting an empty payload does
NOT get a draft nomination created: `save()` rejects the document (the
`required` category/year/statement/summary are missing) and the route
answers a 500 with nothing persisted — refuting "when verified is true it
creates a new Nomination" for every payload. -/
theorem C7_counterexample_missing_required_fields :
    exBusinessUser.verified = true
    ∧ createNomination exDb exBusinessUser {} 2 100 = (exDb, CreateResult.serverError) := by
  decide

/-- C7 (amended).  An unverified caller gets 403 with nothing created — the
check runs before any mutation.  A verified caller whose payload carries
the schema's required fields and passes validation gets a new nomination
appended whose `status` is `draft` and whose `business_id` is the caller's
id; a payload missing a required field or failing validation yields a 500
with nothing created. -/
theorem C7_amended_verified_gate (db : Db) (user : User)
    (p : NominationPayload) (fid : Nat) (now : Int) (cat ss es : String)
    (yr : Int) :
    (user.verified = false →
      createNomination db user p fid now = (db, .permissionDenied))
    ∧ (user.verified = true →
       p.category = some cat → p.year = some yr →
       p.submission_statement = some ss → p.executive_summary = some es →
       nominationValidates (builtNomination user p cat yr ss es fid now) = true →
         (createNomination db user p fid now).2
           = .created (builtNomination user p cat yr ss es fid now)
         ∧ (builtNomination user p cat yr ss es fid now).status = "draft"
         ∧ (builtNomination user p cat yr ss es fid now).business_id = user.id
         ∧ (createNomination db user p fid now).1.nominations
             = db.nominations ++ [builtNomination user p cat yr ss es fid now])
    ∧ (user.verified = true →
       p.category = some cat → p.year = some yr →
       p.submission_statement = some ss → p.executive_summary = some es →
       nominationValidates (builtNomination user p cat yr ss es fid now) = false →
         createNomination db user p fid now = (db, .serverError))
    ∧ (user.verified = true → p.category = none →
         createNomination db user p fid now = (db, .serverError)) := by
  refine ⟨?_, ?_, ?_, ?_⟩
  · intro hv
    simp only [createNomination, hv, Bool.not_false, if_true]
  · intro hv hc hy hs he hval
    simp only [createNomination, hv, Bool.not_true, Bool.false_eq_true,
      if_false, hc, hy, hs, he, hval, if_true]
    exact ⟨by trivial, by trivial, by trivial, by rw [sendNotification_nominations]⟩
  · intro hv hc hy hs he hval
    simp only [createNomination, hv, Bool.not_true, Bool.false_eq_true,
      if_false, hc, hy, hs, he, hval]
  · intro hv hc
    simp only [createNomination, hv, Bool.not_true, Bool.false_eq_true,
      if_false, hc]

/-- C7 witness: `C7_amended_verified_gate` at `exDb` with the complete
payload `exPayload`. -/
theorem C7_witness :
    (createNomination exDb exBusinessUser exPayload 2 100).2
        = .created (builtNomination exBusinessUser exPayload "Technology" 2025
            "stmt" "sum" 2 100)
    ∧ (builtNomination exBusinessUser exPayload "Technology" 2025
        "stmt" "sum" 2 100).status = "draft"
    ∧ (builtNomination exBusinessUser exPayload "Technology" 2025
        "stmt" "sum" 2 100).business_id = exBusinessUser.id
    ∧ (createNomination exDb exBusinessUser exPayload 2 100).1.nominations
        = exDb.nominations ++ [builtNomination exBusinessUser exPayload
            "Technology" 2025 "stmt" "sum" 2 100] :=
  (C7_amended_verified_gate exDb exBusinessUser exPayload 2 100
      "Technology" "stmt" "sum" 2025).2.1
    rfl rfl rfl rfl rfl (by decide)

/-- C1 counterexample.  `winner` is not a legal successor of `submitted` in
the spec's state graph, yet the admin route applied to the submitted
nomination of `exDbSubmitted` succeeds and stores status `winner` — the
route validates nothing about the previous status, refuting the claim as
stated. -/
theorem C1_counterexample_submitted_to_winner :
    specLegalSuccessor "submitted" "winner" = false
    ∧ (updateNominationStatus exDbSubmitted 1 "winner" none 100).2.isOk = true
    ∧ ((updateNominationStatus exDbSubmitted 1 "winner" none 100).1.nominations.map
        Nomination.status) = ["winner"] := by
  decide

/-- C1 (amended).  The admin status route performs no predecessor check:
for every stored nomination and every requested status whose resulting
document passes schema validation (in particular any status in the enum),
the route succeeds and stores the requested status — whatever the previous
status was; a missing nomination answers 404 and a requested status whose
document fails validation (e.g. outside the enum) answers 500 with the
store unchanged.  No InvalidTransition outcome exists. -/
theorem C1_amended_no_predecessor_check (db : Db) (nomId : Nat) (st : String)
    (fb : Option String) (now : Int) (n : Nomination) :
    (db.nominations.find? (fun m => m.id == nomId) = none →
      updateNominationStatus db nomId st fb now = (db, .notFound))
    ∧ (db.nominations.find? (fun m => m.id == nomId) = some n →
       nominationValidates (applyStatusUpdate n st fb now) = true →
         (updateNominationStatus db nomId st fb now).2
           = .ok (applyStatusUpdate n st fb now)
         ∧ (applyStatusUpdate n st fb now).status = st
         ∧ (updateNominationStatus db nomId st fb now).1.nominations
             = db.nominations.map
                 (fun m => if m.id == nomId then applyStatusUpdate n st fb now else m))
    ∧ (db.nominations.find? (fun m => m.id == nomId) = some n →
       nominationValidates (applyStatusUpdate n st fb now) = false →
         updateNominationStatus db nomId st fb now = (db, .serverError))
    ∧ (validNominationStatuses.contains st = false →
        nominationValidates (applyStatusUpdate n st fb now) = false) := by
  have hstat : (applyStatusUpdate n st fb now).status = st := by
    unfold applyStatusUpdate
    cases fb <;> (dsimp only; split <;> (try split) <;> rfl)
  refine ⟨?_, ?_, ?_, ?_⟩
  · intro hf
    simp only [updateNominationStatus, hf]
  · intro hf hval
    simp only [updateNominationStatus, hf, hval, if_true]
    exact ⟨by trivial, hstat, by rw [sendNotification_nominations]⟩
  · intro hf hval
    simp only [updateNominationStatus, hf, hval, Bool.false_eq_true, if_false]
  · intro henum
    unfold nominationValidates
    rw [hstat, henum]
    rfl

/-- C1 witness: `C1_amended_no_predecessor_check` at `exDbSubmitted`,
requesting the jump `submitted → winner`. -/
theorem C1_witness :
    (updateNominationStatus exDbSubmitted 1 "winner" none 100).2
        = .ok (applyStatusUpdate exSubmittedNomination "winner" none 100)
    ∧ (applyStatusUpdate exSubmittedNomination "winner" none 100).status = "winner"
    ∧ (updateNominationStatus exDbSubmitted 1 "winner" none 100).1.nominations
        = exDbSubmitted.nominations.map
            (fun m => if m.id == 1
              then applyStatusUpdate exSubmittedNomination "winner" none 100 else m) :=
  (C1_amended_no_predecessor_check exDbSubmitted 1 "winner" none 100
      exSubmittedNomination).2.1 (by decide) (by decide)

/-- C9.  A failing notification insert is invisible to the triggering
operation: with the fault injected, `sendNotification` returns `none` and
persists nothing (the try/catch swallows the error), and the submit, create
and admin status-update routes produce exactly the same response and the
same stored nominations as the fault-free run — the state transition still
completes and succeeds whenever it would have. -/
theorem C9_notification_failure_isolated (db : Db) (user : User)
    (nomId : Nat) (now : Int) (p : NominationPayload) (fid : Nat)
    (st : String) (fb : Option String) (uid : Nat) (t msg ty : String)
    (r : Option Nat) :
    (sendNotification (withNotifFailure db true) uid t msg ty r).2 = none
    ∧ (sendNotification (withNotifFailure db true) uid t msg ty r).1.notifications
        = db.notifications
    ∧ (submitNomination (withNotifFailure db true) user nomId now).2
        = (submitNomination (withNotifFailure db false) user nomId now).2
    ∧ (submitNomination (withNotifFailure db true) user nomId now).1.nominations
        = (submitNomination (withNotifFailure db false) user nomId now).1.nominations
    ∧ (createNomination (withNotifFailure db true) user p fid now).2
        = (createNomination (withNotifFailure db false) user p fid now).2
    ∧ (createNomination (withNotifFailure db true) user p fid now).1.nominations
        = (createNomination (withNotifFailure db false) user p fid now).1.nominations
    ∧ (updateNominationStatus (withNotifFailure db true) nomId st fb now).2
        = (updateNominationStatus (withNotifFailure db false) nomId st fb now).2
    ∧ (updateNominationStatus (withNotifFailure db true) nomId st fb now).1.nominations
        = (updateNominationStatus (withNotifFailure db false) nomId st fb now).1.nominations := by
  have hsubmit :
      (submitNomination (withNotifFailure db true) user nomId now).2
        = (submitNomination (withNotifFailure db false) user nomId now).2
      ∧ (submitNomination (withNotifFailure db true) user nomId now).1.nominations
        = (submitNomination (withNotifFailure db false) user nomId now).1.nominations := by
    cases hf : db.nominations.find? (fun m => m.id == nomId && m.business_id == user.id) with
    | none => simp [submitNomination, withNotifFailure, hf]
    | some n =>
        by_cases hd : n.status = "draft"
        · constructor
          · simp [submitNomination, withNotifFailure, hf, hd]
          · simp only [submitNomination, withNotifFailure, hf, hd, bne_self_eq_false,
              Bool.false_eq_true, if_false]
            rw [sendNotification_nominations, sendNotification_nominations,
              foldl_sendNotification_nominations, foldl_sendNotification_nominations]
        · simp [submitNomination, withNotifFailure, hf, hd]
  have hcreate :
      (createNomination (withNotifFailure db true) user p fid now).2
        = (createNomination (withNotifFailure db false) user p fid now).2
      ∧ (createNomination (withNotifFailure db true) user p fid now).1.nominations
        = (createNomination (withNotifFailure db false) user p fid now).1.nominations := by
    cases hv : user.verified with
    | false => simp [createNomination, withNotifFailure, hv]
    | true =>
        cases hc : p.category with
        | none => simp [createNomination, withNotifFailure, hv, hc]
        | some cat =>
            cases hy : p.year with
            | none => simp [createNomination, withNotifFailure, hv, hc, hy]
            | some yr =>
                cases hs : p.submission_statement with
                | none => simp [createNomination, withNotifFailure, hv, hc, hy, hs]
                | some ss =>
                    cases he : p.executive_summary with
                    | none => simp [createNomination, withNotifFailure, hv, hc, hy, hs, he]
                    | some es =>
                        cases hval : nominationValidates
                            (builtNomination user p cat yr ss es fid now) with
                        | false =>
                            simp [createNomination, withNotifFailure, hv, hc, hy, hs, he, hval]
                        | true =>
                            constructor
                            · simp [createNomination, withNotifFailure, hv, hc, hy, hs, he, hval]
                            · simp only [createNomination, withNotifFailure, hv, hc, hy, hs, he,
                                hval, Bool.not_true, Bool.false_eq_true, if_false, if_true]
                              rw [sendNotification_nominations, sendNotification_nominations]
  have hupdate :
      (updateNominationStatus (withNotifFailure db true) nomId st fb now).2
        = (updateNominationStatus (withNotifFailure db false) nomId st fb now).2
      ∧ (updateNominationStatus (withNotifFailure db true) nomId st fb now).1.nominations
        = (updateNominationStatus (withNotifFailure db false) nomId st fb now).1.nominations := by
    cases hf : db.nominations.find? (fun m => m.id == nomId) with
    | none => simp [updateNominationStatus, withNotifFailure, hf]
    | some n =>
        cases hval : nominationValidates (applyStatusUpdate n st fb now) with
        | false => simp [updateNominationStatus, withNotifFailure, hf, hval]
        | true =>
            constructor
            · simp [updateNominationStatus, withNotifFailure, hf, hval]
            · simp only [updateNominationStatus, withNotifFailure, hf, hval, if_true]
              rw [sendNotification_nominations, sendNotification_nominations]
  exact ⟨rfl, rfl, hsubmit.1, hsubmit.2, hcreate.1, hcreate.2,
    hupdate.1, hupdate.2⟩

end LBA
